import Mathlib

/-!
Verification development for the sigstore-go trust-root model and
transparency-log submitter.

Part 1 embeds pkg/sign/transparency.go (the Rekor submitter) as pure Lean
functions.  External collaborators (JSON marshalling, the rekor entry
factories, the generated rekor client, the log-entry transformer) are
abstracted as an environment record of fallible functions; everything the
file itself computes is transcribed from the Go source.

Part 2 models the trust-root package (TrustedRoot, TrustedMaterialCollection,
TimeConstrainedVerifier).  Its implementation file is not part of the sources
at hand, only its test file is, so those definitions are modelled from the
specification and are marked as such in their doc comments.
-/

namespace SigstoreGo

/-! ## Wire data shapes used by pkg/sign/transparency.go -/

/-- Byte strings are modelled as lists of naturals below 256. -/
abbrev Bytes := List Nat

/-- protocommon.HashOutput: a digest together with its algorithm tag. -/
structure HashOutput where
  algorithm : String
  digest : Bytes
deriving DecidableEq, Repr

/-- protocommon.MessageSignature: a detached signature over a message digest. -/
structure MessageSignature where
  messageDigest : HashOutput
  signature : Bytes
deriving DecidableEq, Repr

/-- One signature of a DSSE envelope. -/
structure EnvelopeSignature where
  sig : Bytes
  keyid : String
deriving DecidableEq, Repr

/-- An in-toto DSSE envelope: payload type, payload and signatures. -/
structure DsseEnvelope where
  payload : Bytes
  payloadType : String
  signatures : List EnvelopeSignature
deriving DecidableEq, Repr

/-- protocommon.X509Certificate: raw DER bytes of one certificate. -/
structure X509Certificate where
  rawBytes : Bytes
deriving DecidableEq, Repr

/-- protorekor.TransparencyLogEntry: the record folded back into a bundle. -/
structure TransparencyLogEntry where
  logIndex : Int
  logId : Bytes
  integratedTime : Int
  canonicalizedBody : Bytes
deriving DecidableEq, Repr

/-- The oneof content of a protobundle.VerificationMaterial. -/
inductive VMContent where
  | publicKey (hint : String)
  | x509CertificateChain (certificates : List X509Certificate)
  | certificate (c : X509Certificate)
deriving DecidableEq, Repr

/-- protobundle.VerificationMaterial: key material plus the appendable
sequence of transparency-log entries.  A Go nil slice is `none`, a non-nil
slice is `some`. -/
structure VerificationMaterial where
  content : Option VMContent
  tlogEntries : Option (List TransparencyLogEntry)
deriving DecidableEq, Repr

/-- The oneof signature content of a protobundle.Bundle. -/
inductive BundleContent where
  | messageSignature (m : MessageSignature)
  | dsseEnvelope (e : DsseEnvelope)
deriving DecidableEq, Repr

/-- protobundle.Bundle: the signing bundle mutated in place by the submitter.
A nil VerificationMaterial pointer is `none`. -/
structure Bundle where
  mediaType : String
  verificationMaterial : Option VerificationMaterial
  content : Option BundleContent
deriving DecidableEq, Repr

/-- Generated getter GetDsseEnvelope: the envelope when the oneof holds one. -/
def Bundle.getDsseEnvelope (b : Bundle) : Option DsseEnvelope :=
  match b.content with
  | some (.dsseEnvelope e) => some e
  | _ => none

/-- Generated getter GetMessageSignature. -/
def Bundle.getMessageSignature (b : Bundle) : Option MessageSignature :=
  match b.content with
  | some (.messageSignature m) => some m
  | _ => none

/-- Generated getter GetVerificationMaterial (tolerates the nil pointer). -/
def Bundle.getVerificationMaterial (b : Bundle) : Option VerificationMaterial :=
  b.verificationMaterial

/-- Generated getter GetCertificate on a possibly-nil VerificationMaterial:
nil receiver or a different oneof arm yields nil. -/
def getCertificate (vm : Option VerificationMaterial) : Option X509Certificate :=
  match vm with
  | some m =>
    match m.content with
    | some (.certificate c) => some c
    | _ => none
  | none => none

/-! ## Hex encoding and the rekor hash string helper -/

/-- Lower-case hex digit for a value below 16, as encoding/hex uses. -/
def hexDigitChar (n : Nat) : Char :=
  if n < 10 then Char.ofNat (48 + n) else Char.ofNat (87 + n)

/-- Two hex digits of one byte, most significant first. -/
def hexEncodeByte (b : Nat) : List Char :=
  [hexDigitChar (b / 16 % 16), hexDigitChar (b % 16)]

/-- hex.EncodeToString: lower-case hex rendering of a byte string. -/
def hexEncodeToString (bs : Bytes) : String :=
  String.mk ((bs.map hexEncodeByte).flatten)

/-- Collaborator rekorUtil.PrefixSHA: tag a bare hex digest with the hash
algorithm its length implies; a digest already tagged is returned as is. -/
def prefixSHA (sha : String) : String :=
  if (sha.splitOn ":").length = 2 then sha
  else if sha.length = 40 then "sha1:" ++ sha
  else if sha.length = 96 then "sha384:" ++ sha
  else if sha.length = 128 then "sha512:" ++ sha
  else "sha256:" ++ sha

/-! ## The rekor submission types -/

/-- Go errors are modelled by their message. -/
abbrev GoError := String

/-- Decidable equality of Except values with decidable components. -/
instance exceptDecEq {ε α : Type} [DecidableEq ε] [DecidableEq α] :
    DecidableEq (Except ε α) := fun x y =>
  match x, y with
  | .ok a, .ok b =>
    if h : a = b then isTrue (by rw [h]) else isFalse (by intro hc; cases hc; exact h rfl)
  | .error a, .error b =>
    if h : a = b then isTrue (by rw [h]) else isFalse (by intro hc; cases hc; exact h rfl)
  | .ok _, .error _ => isFalse (by intro hc; cases hc)
  | .error _, .ok _ => isFalse (by intro hc; cases hc)

/-- types.ArtifactProperties: the fields transparency.go populates. -/
structure ArtifactProperties where
  publicKeyBytes : List Bytes := []
  artifactBytes : Bytes := []
  pkiFormat : String := ""
  signatureBytes : Bytes := []
  artifactHash : String := ""
deriving DecidableEq, Repr

/-- models.ProposedEntry, opaque to this module: built by the rekor entry
factories and handed to the client unchanged. -/
structure ProposedEntry where
  tag : Nat
deriving DecidableEq, Repr

/-- models.LogEntryAnon, opaque to this module.  The default value is the Go
zero value produced by a missing map key. -/
structure LogEntryAnon where
  tag : Nat := 0
deriving DecidableEq, Repr, Inhabited

/-- The injected RekorClient, opaque to this module. -/
structure RekorClient where
  tag : Nat
deriving DecidableEq, Repr

/-- entries.CreateLogEntryCreated: response payload keyed by an opaque tag. -/
structure CreateLogEntryCreated where
  eTag : String
  payload : List (String × LogEntryAnon)
deriving DecidableEq, Repr

/-- entries.CreateLogEntryParams as transparency.go populates it.  The
caller context (cancellation) is outside this embedding. -/
structure CreateLogEntryParams where
  proposedEntry : Option ProposedEntry
  timeout : Option Int
deriving DecidableEq, Repr

/-- entries.NewCreateLogEntryParams viewed from this module: a request with
no proposed entry and no timeout applied yet. -/
def newCreateLogEntryParams : CreateLogEntryParams :=
  { proposedEntry := none, timeout := none }

/-- One nanosecond-denominated second of time.Duration. -/
def second : Int := 1000000000

/-- RekorOptions: base URL, timeout, retry count and optional client. -/
structure RekorOptions where
  baseURL : String
  timeout : Int
  retries : Nat
  client : Option RekorClient
deriving DecidableEq, Repr

/-- The external collaborators of GetTransparencyLogEntry, each a fallible
function: json.Marshal on the envelope, the two rekor entry factories, the
lazily constructed client, the submission call and the transformation of the
returned entry. -/
structure RekorEnv where
  marshalDsse : DsseEnvelope → Except GoError Bytes
  createProposedEntryDsse : String → ArtifactProperties → Except GoError ProposedEntry
  createProposedEntryHashedRekord : String → ArtifactProperties → Except GoError ProposedEntry
  getRekorClient : String → Nat → Except GoError RekorClient
  createLogEntry : RekorClient → CreateLogEntryParams → Except GoError CreateLogEntryCreated
  generateTransparencyLogEntry : LogEntryAnon → Except GoError TransparencyLogEntry

/-- Outcome of one call: success and failure both carry the final bundle and
options state; `nilPanic` is the nil-pointer dereference crash. -/
inductive SubmitResult where
  | ok (b : Bundle) (opts : RekorOptions)
  | err (e : GoError) (b : Bundle) (opts : RekorOptions)
  | nilPanic (opts : RekorOptions)
deriving DecidableEq, Repr

/-- The switch of GetTransparencyLogEntry (transparency.go lines 71-117):
build the proposed entry from the signature content of the bundle. -/
def buildProposedEntry (env : RekorEnv) (pubKeyPEM : Bytes) (b : Bundle) :
    Except GoError ProposedEntry :=
  let artifactProperties : ArtifactProperties := { publicKeyBytes := [pubKeyPEM] }
  let dsseEnvelope := b.getDsseEnvelope
  let messageSignature := b.getMessageSignature
  let verificationMaterial := b.getVerificationMaterial
  let bundleCertificate := getCertificate verificationMaterial
  match dsseEnvelope, messageSignature with
  | some envelope, _ =>
    match env.marshalDsse envelope with
    | .error e => .error e
    | .ok artifactBytes =>
      env.createProposedEntryDsse ""
        { artifactProperties with artifactBytes := artifactBytes }
  | none, some ms =>
    if bundleCertificate = none then
      .error "hashedrekord requires X.509 certificate"
    else
      let hexDigest := hexEncodeToString ms.messageDigest.digest
      env.createProposedEntryHashedRekord ""
        { artifactProperties with
            pkiFormat := "x509"
            signatureBytes := ms.signature
            artifactHash := prefixSHA hexDigest }
  | none, none => .error "unable to find signature in bundle"

/-- The timeout block of GetTransparencyLogEntry (transparency.go lines
120-125): a non-negative configured timeout is applied to the request, the
zero sentinel being overwritten with 30 seconds in the shared options first;
a negative timeout leaves the request untouched. -/
def applyTimeout (opts : RekorOptions) (params : CreateLogEntryParams) :
    RekorOptions × CreateLogEntryParams :=
  if 0 ≤ opts.timeout then
    let opts1 := if opts.timeout = 0 then { opts with timeout := 30 * second } else opts
    (opts1, { params with timeout := some opts1.timeout })
  else
    (opts, params)

/-- The submission half of GetTransparencyLogEntry (transparency.go lines
119-155): apply the timeout policy to the request, lazily materialize the
client, submit, transform the returned entry and append it to the bundle. -/
def submitStage (env : RekorEnv) (opts : RekorOptions) (b : Bundle)
    (proposedEntry : ProposedEntry) : SubmitResult :=
  let opts1 := (applyTimeout opts newCreateLogEntryParams).1
  let params1 := (applyTimeout opts newCreateLogEntryParams).2
  let params2 := { params1 with proposedEntry := some proposedEntry }
  let clientStep : Except GoError (RekorOptions × RekorClient) :=
    match opts1.client with
    | some c => .ok (opts1, c)
    | none =>
      match env.getRekorClient opts1.baseURL opts1.retries with
      | .error e => .error e
      | .ok c => .ok ({ opts1 with client := some c }, c)
  match clientStep with
  | .error e => .err e b opts1
  | .ok (opts2, c) =>
    match env.createLogEntry c params2 with
    | .error e => .err e b opts2
    | .ok resp =>
      let entry := (resp.payload.lookup resp.eTag).getD default
      match env.generateTransparencyLogEntry entry with
      | .error e => .err e b opts2
      | .ok tlogEntry =>
        match b.verificationMaterial with
        | none => .nilPanic opts2
        | some vm =>
          let oldEntries := vm.tlogEntries.getD []
          let vm1 := { vm with tlogEntries := some (oldEntries ++ [tlogEntry]) }
          .ok { b with verificationMaterial := some vm1 } opts2

/-- Rekor.GetTransparencyLogEntry (transparency.go lines 70-155), as a pure
function from environment, options state and bundle to an outcome carrying
the final bundle and options state. -/
def getTransparencyLogEntry (env : RekorEnv) (opts : RekorOptions)
    (pubKeyPEM : Bytes) (b : Bundle) : SubmitResult :=
  match buildProposedEntry env pubKeyPEM b with
  | .error e => .err e b opts
  | .ok proposedEntry => submitStage env opts b proposedEntry

/-- Final options state of an outcome. -/
def resultOptions : SubmitResult → RekorOptions
  | .ok _ o => o
  | .err _ _ o => o
  | .nilPanic o => o

/-- The bundle shape a successful submission produces: the given entry
appended to the log-entry sequence of the given verification material,
an absent sequence initialized to empty first. -/
def appendedBundle (b : Bundle) (vm : VerificationMaterial)
    (entry : TransparencyLogEntry) : Bundle :=
  let vm1 := { vm with tlogEntries := some (vm.tlogEntries.getD [] ++ [entry]) }
  { b with verificationMaterial := some vm1 }

/-! ## Trust-root wire documents

The trust-root implementation file is not among the sources at hand (only its
test file is), so the definitions of this part are modelled from the
specification, as their doc comments record. -/

/-- Hash functions selected for log signature verification. -/
inductive HashFunc where
  | sha256
  | sha384
  | sha512
deriving DecidableEq, Repr

/-- The key-details algorithm tags of the wire format named by the
specification: RSA-PKCS1v15 with SHA-256, the ECDSA curves with their
hashes, and Ed25519. -/
inductive KeyDetails where
  | pkixEd25519
  | pkixEcdsaP256Sha256
  | pkixEcdsaP384Sha384
  | pkixEcdsaP521Sha512
  | pkixRsaPkcs1v152048Sha256
  | pkixRsaPkcs1v153072Sha256
  | pkixRsaPkcs1v154096Sha256
deriving DecidableEq, Repr

/-- A wire timestamp: whole seconds and an optional sub-second fraction;
`none` means the fraction is omitted on the wire, and a zero fraction may be
written either way. -/
structure WireTimestamp where
  seconds : Int
  fraction : Option Nat
deriving DecidableEq, Repr

/-- A wire validity window; the endTime field is the end of the window,
absent when the entry never expires. -/
structure WireValidityPeriod where
  start : WireTimestamp
  endTime : Option WireTimestamp
deriving DecidableEq, Repr

/-- A wire public key: raw encoding, algorithm tag and validity window. -/
structure WirePublicKey where
  rawBytes : Bytes
  keyDetails : KeyDetails
  validFor : Option WireValidityPeriod
deriving DecidableEq, Repr

/-- A wire transparency-log descriptor (used for rekor logs and CT logs). -/
structure WireTransparencyLogInstance where
  baseUrl : String
  hashAlgorithm : String
  publicKey : WirePublicKey
  logId : String
deriving DecidableEq, Repr

/-- A wire certificate-authority descriptor (also used for timestamping
authorities): certificate chain, validity window and URI. -/
structure WireCertificateAuthority where
  certChain : List Bytes
  validFor : Option WireValidityPeriod
  uri : String
deriving DecidableEq, Repr

/-- A trust-root wire document.  The extensions field stands for the fields
the model does not interpret (vendor extensions), which must survive a
round trip unchanged. -/
structure WireTrustedRoot where
  mediaType : String
  tlogs : List WireTransparencyLogInstance
  certificateAuthorities : List WireCertificateAuthority
  ctlogs : List WireTransparencyLogInstance
  timestampAuthorities : List WireCertificateAuthority
  extensions : List (String × String)
deriving DecidableEq, Repr

/-! ## Wire normalization on emission -/

/-- Emission normalization of one timestamp: a zero sub-second fraction is
dropped, as the protobuf JSON encoder does. -/
def normTimestamp (t : WireTimestamp) : WireTimestamp :=
  { t with fraction := match t.fraction with | some 0 => none | f => f }

/-- Emission normalization of a validity window. -/
def normValidity (vp : WireValidityPeriod) : WireValidityPeriod :=
  { start := normTimestamp vp.start, endTime := vp.endTime.map normTimestamp }

/-- Emission normalization of a wire public key. -/
def normPublicKey (pk : WirePublicKey) : WirePublicKey :=
  { pk with validFor := pk.validFor.map normValidity }

/-- Emission normalization of a wire log descriptor. -/
def normLog (l : WireTransparencyLogInstance) : WireTransparencyLogInstance :=
  { l with publicKey := normPublicKey l.publicKey }

/-- Emission normalization of a wire certificate authority. -/
def normCA (ca : WireCertificateAuthority) : WireCertificateAuthority :=
  { ca with validFor := ca.validFor.map normValidity }

/-- Emission normalization of a whole wire document: every timestamp with a
zero fraction loses the fraction; every other field is untouched. -/
def normDoc (d : WireTrustedRoot) : WireTrustedRoot :=
  { mediaType := d.mediaType
    tlogs := d.tlogs.map normLog
    certificateAuthorities := d.certificateAuthorities.map normCA
    ctlogs := d.ctlogs.map normLog
    timestampAuthorities := d.timestampAuthorities.map normCA
    extensions := d.extensions }

/-- Semantic equality of wire documents: equality modulo the zero-fraction
timestamp normalization. -/
def semEq (a b : WireTrustedRoot) : Prop :=
  normDoc a = normDoc b

instance : DecidablePred (fun p : WireTrustedRoot × WireTrustedRoot => semEq p.1 p.2) :=
  fun p => inferInstanceAs (Decidable (normDoc p.1 = normDoc p.2))

/-! ## The trust-root model -/

/-- Modelled from the spec: the recognized versioned media type of the
trust-root schema (TrustedRootMediaType01). -/
def TrustedRootMediaType01 : String :=
  "application/vnd.dev.sigstore.trustedroot+json;version=0.1"

/-- A wire timestamp as one instant, in nanoseconds. -/
def instantOf (t : WireTimestamp) : Int :=
  t.seconds * second + (t.fraction.getD 0)

/-- Modelled from the spec: the lookup key of a log entry is derived from a
cryptographic digest of its public key encoding; the digest is modelled by
the hex rendering of the encoding, likewise content-derived and
deterministic. -/
def keyFor (pk : WirePublicKey) : String :=
  hexEncodeToString pk.rawBytes

/-- Modelled from the spec: the signature hash function selected for a log
entry from its key-details tag; an Ed25519 key selects the SHA-512 family,
every other recognized tag selects its declared hash. -/
def signatureHashFor : KeyDetails → HashFunc
  | .pkixEd25519 => .sha512
  | .pkixEcdsaP256Sha256 => .sha256
  | .pkixEcdsaP384Sha384 => .sha384
  | .pkixEcdsaP521Sha512 => .sha512
  | .pkixRsaPkcs1v152048Sha256 => .sha256
  | .pkixRsaPkcs1v153072Sha256 => .sha256
  | .pkixRsaPkcs1v154096Sha256 => .sha256

/-- A rekor-style or CT log entry of the trust-root model: identifier, key
material, selected hash and validity window (an absent end never expires). -/
structure TransparencyLog where
  baseURL : String
  id : String
  rawBytes : Bytes
  keyDetails : KeyDetails
  signatureHashFunc : HashFunc
  validityPeriodStart : Int
  validityPeriodEnd : Option Int
deriving DecidableEq, Repr

/-- A certificate authority (or timestamping authority) of the model. -/
structure CertificateAuthority where
  certChain : List Bytes
  uri : String
  validityPeriodStart : Int
  validityPeriodEnd : Option Int
deriving DecidableEq, Repr

/-- The model entry built from one wire log descriptor. -/
def logOfWire (l : WireTransparencyLogInstance) : TransparencyLog :=
  { baseURL := l.baseUrl
    id := keyFor l.publicKey
    rawBytes := l.publicKey.rawBytes
    keyDetails := l.publicKey.keyDetails
    signatureHashFunc := signatureHashFor l.publicKey.keyDetails
    validityPeriodStart := (l.publicKey.validFor.map (fun vp => instantOf vp.start)).getD 0
    validityPeriodEnd := (l.publicKey.validFor.bind (fun vp => vp.endTime)).map instantOf }

/-- The model entry built from one wire certificate authority. -/
def caOfWire (ca : WireCertificateAuthority) : CertificateAuthority :=
  { certChain := ca.certChain
    uri := ca.uri
    validityPeriodStart := (ca.validFor.map (fun vp => instantOf vp.start)).getD 0
    validityPeriodEnd := (ca.validFor.bind (fun vp => vp.endTime)).map instantOf }

/-- Modelled from the spec: the canonical in-memory trust model; the keyed
log mappings are association lists keyed by the derived identifier, the
authorities are ordered sequences, and the originally parsed wire value is
retained for exact round-tripping. -/
structure TrustedRoot where
  mediaType : String
  rekorLogs : List (String × TransparencyLog)
  ctLogs : List (String × TransparencyLog)
  certificateAuthorities : List CertificateAuthority
  timestampingAuthorities : List CertificateAuthority
  trustedRoot : WireTrustedRoot
deriving DecidableEq, Repr

/-- Modelled from the spec: constructing a TrustedRoot from a wire document
(NewTrustedRootFromProtobuf): validate the media type, derive every log key
from its public key, reject duplicate keys within a category, and retain the
original wire value. -/
def fromWire (d : WireTrustedRoot) : Except GoError TrustedRoot :=
  if d.mediaType ≠ TrustedRootMediaType01 then
    .error "unsupported media type"
  else
    let rekorLogs := d.tlogs.map (fun l => (keyFor l.publicKey, logOfWire l))
    let ctLogs := d.ctlogs.map (fun l => (keyFor l.publicKey, logOfWire l))
    if ¬ (rekorLogs.map Prod.fst).Nodup then
      .error "malformed trust root: duplicate rekor log key"
    else if ¬ (ctLogs.map Prod.fst).Nodup then
      .error "malformed trust root: duplicate ct log key"
    else
      .ok { mediaType := d.mediaType
            rekorLogs := rekorLogs
            ctLogs := ctLogs
            certificateAuthorities := d.certificateAuthorities.map caOfWire
            timestampingAuthorities := d.timestampAuthorities.map caOfWire
            trustedRoot := d }

/-- Modelled from the spec: serialization re-emits the retained wire value,
overlaying the managed media-type field, with the zero-fraction timestamp
normalization the wire encoder performs. -/
def toWire (tr : TrustedRoot) : WireTrustedRoot :=
  normDoc { tr.trustedRoot with mediaType := tr.mediaType }

/-! ## Time-constrained verifiers and the trusted-material collection -/

/-- Modelled from the spec: a verifier wrapped with a validity window; the
underlying verifier capability is carried as its key material. -/
structure TimeConstrainedVerifier where
  keyBytes : Bytes
  validityPeriodStart : Int
  validityPeriodEnd : Option Int
deriving DecidableEq, Repr

/-- Modelled from the spec: ValidAtTime t is true iff start is at most t and
the end is absent or t is at most the end. -/
def TimeConstrainedVerifier.ValidAtTime (v : TimeConstrainedVerifier) (t : Int) : Bool :=
  decide (v.validityPeriodStart ≤ t) &&
    (match v.validityPeriodEnd with
     | none => true
     | some e => decide (t ≤ e))

/-- Lookup errors of the trust model. -/
inductive RootError where
  | noSuchKey (id : String)
  | other (msg : String)
deriving DecidableEq, Repr

/-- One trust-material source: anything able to resolve a public-key
verifier by identifier. -/
structure TrustedMaterial where
  PublicKeyVerifier : String → Except RootError TimeConstrainedVerifier

/-- An ordered sequence of trust-material sources. -/
abbrev TrustedMaterialCollection := List TrustedMaterial

/-- Whether a resolution succeeded. -/
def exceptIsOk : Except RootError TimeConstrainedVerifier → Bool
  | .ok _ => true
  | .error _ => false

/-- Modelled from the spec: the collection tries each member in sequence
order and returns the first successful resolution; when every member fails
it returns the error of the last member, and on an empty sequence a generic
no-such-key error. -/
def TrustedMaterialCollection.PublicKeyVerifier :
    TrustedMaterialCollection → String → Except RootError TimeConstrainedVerifier
  | [], id => .error (.noSuchKey id)
  | tm :: rest, id =>
    match tm.PublicKeyVerifier id with
    | .ok v => .ok v
    | .error e =>
      match rest with
      | [] => .error e
      | _ :: _ => TrustedMaterialCollection.PublicKeyVerifier rest id

/-- The substitution the Ed25519 test performs on one wire log descriptor:
the key-details tag becomes Ed25519 and the key bytes become the supplied
Ed25519 public key encoding. -/
def setTlogKeyEd25519 (k : Bytes) (l : WireTransparencyLogInstance) :
    WireTransparencyLogInstance :=
  { l with publicKey := { l.publicKey with keyDetails := .pkixEd25519, rawBytes := k } }

/-! ## Concrete example inputs for the witnesses -/

/-- A concrete valid wire document with one rekor log, one CT log and a
vendor extension, its rekor timestamp carrying a zero fraction. -/
def wireDocEx : WireTrustedRoot :=
  { mediaType := TrustedRootMediaType01
    tlogs := [{ baseUrl := "https://rekor.example"
                hashAlgorithm := "sha256"
                publicKey := { rawBytes := [1, 2]
                               keyDetails := .pkixEcdsaP256Sha256
                               validFor := some { start := { seconds := 5, fraction := some 0 }
                                                  endTime := none } }
                logId := "a" }]
    certificateAuthorities := []
    ctlogs := [{ baseUrl := "https://ctfe.example"
                 hashAlgorithm := "sha256"
                 publicKey := { rawBytes := [3]
                                keyDetails := .pkixEcdsaP256Sha256
                                validFor := none }
                 logId := "b" }]
    timestampAuthorities := []
    extensions := [("vendor", "x")] }

/-- The TrustedRoot that fromWire builds from wireDocEx. -/
def trustedRootEx : TrustedRoot :=
  { mediaType := TrustedRootMediaType01
    rekorLogs := [("0102", { baseURL := "https://rekor.example"
                             id := "0102"
                             rawBytes := [1, 2]
                             keyDetails := .pkixEcdsaP256Sha256
                             signatureHashFunc := .sha256
                             validityPeriodStart := 5000000000
                             validityPeriodEnd := none })]
    ctLogs := [("03", { baseURL := "https://ctfe.example"
                        id := "03"
                        rawBytes := [3]
                        keyDetails := .pkixEcdsaP256Sha256
                        signatureHashFunc := .sha256
                        validityPeriodStart := 0
                        validityPeriodEnd := none })]
    certificateAuthorities := []
    timestampingAuthorities := []
    trustedRoot := wireDocEx }

/-- An environment in which every collaborator succeeds. -/
def envOk : RekorEnv :=
  { marshalDsse := fun _ => .ok [1]
    createProposedEntryDsse := fun _ _ => .ok { tag := 1 }
    createProposedEntryHashedRekord := fun _ _ => .ok { tag := 2 }
    getRekorClient := fun _ _ => .ok { tag := 3 }
    createLogEntry := fun _ _ => .ok { eTag := "e", payload := [("e", { tag := 4 })] }
    generateTransparencyLogEntry := fun _ =>
      .ok { logIndex := 1, logId := [5], integratedTime := 6, canonicalizedBody := [7] } }

/-- Options with a negative timeout and an injected client. -/
def optsEx : RekorOptions :=
  { baseURL := "https://rekor.example", timeout := -1, retries := 0, client := some { tag := 3 } }

/-- Options with the zero timeout sentinel and no client. -/
def optsZeroEx : RekorOptions :=
  { baseURL := "https://rekor.example", timeout := 0, retries := 0, client := none }

/-- A concrete message signature. -/
def msEx : MessageSignature :=
  { messageDigest := { algorithm := "SHA2_256", digest := [171, 205] }, signature := [9, 9] }

/-- A concrete DSSE envelope. -/
def dsseEx : DsseEnvelope :=
  { payload := [1], payloadType := "application/vnd.in-toto+json"
    signatures := [{ sig := [2], keyid := "k" }] }

/-- A bundle with a message signature and no certificate in its
verification material. -/
def bundleMsgNoCert : Bundle :=
  { mediaType := "application/vnd.dev.sigstore.bundle+json;version=0.3"
    verificationMaterial := some { content := some (.publicKey "hint"), tlogEntries := none }
    content := some (.messageSignature msEx) }

/-- A bundle with no signature content at all. -/
def bundleNoSigEx : Bundle :=
  { mediaType := "application/vnd.dev.sigstore.bundle+json;version=0.3"
    verificationMaterial := some { content := some (.publicKey "hint"), tlogEntries := none }
    content := none }

/-- A bundle with a DSSE envelope, a pre-existing log entry and a
certificate. -/
def bundleDsseEx : Bundle :=
  { mediaType := "application/vnd.dev.sigstore.bundle+json;version=0.3"
    verificationMaterial := some
      { content := some (.certificate { rawBytes := [8] })
        tlogEntries := some [{ logIndex := 0, logId := [4], integratedTime := 2,
                               canonicalizedBody := [6] }] }
    content := some (.dsseEnvelope dsseEx) }

/-- The bundle that a successful submission produces from bundleDsseEx in
the all-succeeding environment. -/
def bundleDsseOut : Bundle :=
  let vm1 : VerificationMaterial :=
    { content := some (.certificate { rawBytes := [8] })
      tlogEntries := some [{ logIndex := 0, logId := [4], integratedTime := 2,
                             canonicalizedBody := [6] },
                           { logIndex := 1, logId := [5], integratedTime := 6,
                             canonicalizedBody := [7] }] }
  { bundleDsseEx with verificationMaterial := some vm1 }

/-- A bundle with a DSSE envelope and an entirely absent verification
material. -/
def bundleDsseNoVM : Bundle :=
  { mediaType := "application/vnd.dev.sigstore.bundle+json;version=0.3"
    verificationMaterial := none
    content := some (.dsseEnvelope dsseEx) }

/-! ## Claim theorems -/

/-- C3: for every TimeConstrainedVerifier with validity start s and optional
end e, ValidAtTime t is true iff s ≤ t and (e absent or t ≤ e); when e is
absent every t ≥ s is valid, including far-future times; when e is present,
ValidAtTime e is true (under the invariant s ≤ e) and ValidAtTime (e + ε) is
false for every ε > 0. -/
theorem validAtTime_spec (v : TimeConstrainedVerifier) (t : Int) :
    (v.ValidAtTime t = true ↔
      v.validityPeriodStart ≤ t ∧
        (v.validityPeriodEnd = none ∨ ∃ e, v.validityPeriodEnd = some e ∧ t ≤ e))
  ∧ (v.validityPeriodEnd = none → v.validityPeriodStart ≤ t → v.ValidAtTime t = true)
  ∧ (∀ e, v.validityPeriodEnd = some e → v.validityPeriodStart ≤ e →
      v.ValidAtTime e = true ∧ ∀ ε : Int, 0 < ε → v.ValidAtTime (e + ε) = false) := by
  refine ⟨?_, ?_, ?_⟩
  · cases h : v.validityPeriodEnd with
    | none => simp [TimeConstrainedVerifier.ValidAtTime, h]
    | some e => simp [TimeConstrainedVerifier.ValidAtTime, h]
  · intro h hs
    simp [TimeConstrainedVerifier.ValidAtTime, h, hs]
  · intro e he hse
    constructor
    · simp [TimeConstrainedVerifier.ValidAtTime, he, hse]
    · intro ε hε
      simp only [TimeConstrainedVerifier.ValidAtTime, he]
      have : ¬ (e + ε ≤ e) := by omega
      simp [this]

/-- Witness for C3 at a concrete verifier with validity window 0 to 10. -/
theorem validAtTime_spec_witness :
    ({ keyBytes := [1], validityPeriodStart := 0, validityPeriodEnd := some 10 :
        TimeConstrainedVerifier }).ValidAtTime 10 = true
  ∧ ({ keyBytes := [1], validityPeriodStart := 0, validityPeriodEnd := some 10 :
        TimeConstrainedVerifier }).ValidAtTime (10 + 1) = false := by
  have h := (validAtTime_spec
    { keyBytes := [1], validityPeriodStart := 0, validityPeriodEnd := some 10 } 0).2.2
    10 rfl (by decide)
  exact ⟨h.1, h.2 1 (by decide)⟩

/-- C7: the submission request timeout policy: a negative configured timeout
applies no timeout to the request, a zero timeout applies the 30-second
default, and a positive timeout is applied unchanged. -/
theorem timeout_policy (opts : RekorOptions) :
    (opts.timeout < 0 →
      (applyTimeout opts newCreateLogEntryParams).2.timeout = none)
  ∧ (opts.timeout = 0 →
      (applyTimeout opts newCreateLogEntryParams).2.timeout = some (30 * second))
  ∧ (0 < opts.timeout →
      (applyTimeout opts newCreateLogEntryParams).2.timeout = some opts.timeout) := by
  refine ⟨?_, ?_, ?_⟩ <;> intro h
  · simp [applyTimeout, newCreateLogEntryParams, show ¬ ((0:Int) ≤ opts.timeout) from by omega]
  · simp [applyTimeout, newCreateLogEntryParams, h]
  · simp [applyTimeout, newCreateLogEntryParams,
      show (0:Int) ≤ opts.timeout from by omega, show ¬ (opts.timeout = 0) from by omega]

/-- Witness for C7 at timeouts of minus one, zero and five nanoseconds. -/
theorem timeout_policy_witness :
    (applyTimeout { baseURL := "", timeout := -1, retries := 0, client := none }
        newCreateLogEntryParams).2.timeout = none
  ∧ (applyTimeout { baseURL := "", timeout := 0, retries := 0, client := none }
        newCreateLogEntryParams).2.timeout = some (30 * second)
  ∧ (applyTimeout { baseURL := "", timeout := 5, retries := 0, client := none }
        newCreateLogEntryParams).2.timeout = some 5 := by
  refine ⟨(timeout_policy _).1 (by decide), (timeout_policy _).2.1 rfl,
    (timeout_policy _).2.2 (by decide)⟩

/-- C2: the collection lookup returns the result of the first member in
sequence order that resolves the identifier (the first ok entry of the
member results); it fails exactly when every member fails, in which case it
returns the error of the last member, and on the empty collection the
generic no-such-key error. -/
theorem collection_publicKeyVerifier_spec (tmc : TrustedMaterialCollection) (id : String) :
    (∀ r, (tmc.map (fun tm => tm.PublicKeyVerifier id)).find? exceptIsOk = some r →
      tmc.PublicKeyVerifier id = r)
  ∧ (exceptIsOk (tmc.PublicKeyVerifier id)
      = (tmc.map (fun tm => tm.PublicKeyVerifier id)).any exceptIsOk)
  ∧ (∀ h : tmc ≠ [],
      (∀ tm ∈ tmc, exceptIsOk (tm.PublicKeyVerifier id) = false) →
      tmc.PublicKeyVerifier id = (tmc.getLast h).PublicKeyVerifier id)
  ∧ (tmc = [] → tmc.PublicKeyVerifier id = .error (.noSuchKey id)) := by
  induction tmc with
  | nil =>
    refine ⟨?_, ?_, ?_, ?_⟩
    · intro r hr; simp at hr
    · simp [TrustedMaterialCollection.PublicKeyVerifier, exceptIsOk]
    · intro h; exact absurd rfl h
    · intro _; rfl
  | cons tm rest ih =>
    refine ⟨?_, ?_, ?_, ?_⟩
    · intro r hr
      cases hk : tm.PublicKeyVerifier id with
      | ok v =>
        simp only [List.map_cons, List.find?_cons, hk, exceptIsOk] at hr
        simp only [cond_true, Option.some.injEq] at hr
        subst hr
        simp [TrustedMaterialCollection.PublicKeyVerifier, hk]
      | error e =>
        simp only [List.map_cons, List.find?_cons, hk, exceptIsOk, cond_false] at hr
        cases rest with
        | nil => simp at hr
        | cons tm1 rest1 =>
          have := ih.1 r hr
          simpa [TrustedMaterialCollection.PublicKeyVerifier, hk] using this
    · cases hk : tm.PublicKeyVerifier id with
      | ok v =>
        simp [TrustedMaterialCollection.PublicKeyVerifier, hk, exceptIsOk]
      | error e =>
        cases rest with
        | nil =>
          show exceptIsOk (match tm.PublicKeyVerifier id with
            | .ok v => .ok v | .error e => .error e) = _
          rw [hk]
          simp [exceptIsOk, hk]
        | cons tm1 rest1 =>
          have hstep : TrustedMaterialCollection.PublicKeyVerifier (tm :: tm1 :: rest1) id
              = TrustedMaterialCollection.PublicKeyVerifier (tm1 :: rest1) id := by
            simp [TrustedMaterialCollection.PublicKeyVerifier, hk]
          rw [hstep, ih.2.1]
          simp [List.any_cons, hk, exceptIsOk]
    · intro h hall
      have hfst := hall tm (List.mem_cons_self tm rest)
      cases hk : tm.PublicKeyVerifier id with
      | ok v => rw [hk] at hfst; simp [exceptIsOk] at hfst
      | error e =>
        cases rest with
        | nil =>
          simp [TrustedMaterialCollection.PublicKeyVerifier, hk, List.getLast]
        | cons tm1 rest1 =>
          have hrest : ∀ tm2 ∈ tm1 :: rest1, exceptIsOk (tm2.PublicKeyVerifier id) = false := by
            intro tm2 hm; exact hall tm2 (List.mem_cons_of_mem tm hm)
          have := ih.2.2.1 (List.cons_ne_nil tm1 rest1) hrest
          rw [List.getLast_cons (List.cons_ne_nil tm1 rest1)]
          simpa [TrustedMaterialCollection.PublicKeyVerifier, hk] using this
    · intro h; exact absurd h (List.cons_ne_nil tm rest)

/-- Witness for C2: a two-member collection whose first member fails and
whose second member resolves, queried at a concrete identifier. -/
theorem collection_publicKeyVerifier_spec_witness :
    TrustedMaterialCollection.PublicKeyVerifier
      [{ PublicKeyVerifier := fun id => .error (.noSuchKey id) },
       { PublicKeyVerifier := fun _ =>
          .ok { keyBytes := [7], validityPeriodStart := 0, validityPeriodEnd := none } }]
      "foo"
    = .ok { keyBytes := [7], validityPeriodStart := 0, validityPeriodEnd := none } :=
  (collection_publicKeyVerifier_spec
    [{ PublicKeyVerifier := fun id => .error (.noSuchKey id) },
     { PublicKeyVerifier := fun _ =>
        .ok { keyBytes := [7], validityPeriodStart := 0, validityPeriodEnd := none } }]
    "foo").1 _ rfl

/-! ## Round-trip lemmas -/

theorem normTimestamp_idem (t : WireTimestamp) :
    normTimestamp (normTimestamp t) = normTimestamp t := by
  cases t with
  | mk s f =>
    cases f with
    | none => rfl
    | some n => cases n with
      | zero => rfl
      | succ m => rfl

theorem normValidity_idem (vp : WireValidityPeriod) :
    normValidity (normValidity vp) = normValidity vp := by
  cases vp with
  | mk s e =>
    cases e with
    | none => simp [normValidity, normTimestamp_idem]
    | some t => simp [normValidity, normTimestamp_idem]

theorem normPublicKey_idem (pk : WirePublicKey) :
    normPublicKey (normPublicKey pk) = normPublicKey pk := by
  cases h : pk.validFor with
  | none => simp [normPublicKey, h]
  | some vp => simp [normPublicKey, h, normValidity_idem]

theorem normLog_idem (l : WireTransparencyLogInstance) :
    normLog (normLog l) = normLog l := by
  simp [normLog, normPublicKey_idem]

theorem normCA_idem (ca : WireCertificateAuthority) :
    normCA (normCA ca) = normCA ca := by
  cases h : ca.validFor with
  | none => simp [normCA, h]
  | some vp => simp [normCA, h, normValidity_idem]

theorem normDoc_idem (d : WireTrustedRoot) : normDoc (normDoc d) = normDoc d := by
  simp [normDoc, List.map_map, Function.comp_def, normLog_idem, normCA_idem]

/-- C1: deserializing a valid wire document into a TrustedRoot and
serializing it back yields a document semantically equal to the input,
modulo the zero-fraction timestamp normalization, and the fields the model
does not interpret survive unchanged. -/
theorem trusted_root_round_trip (d : WireTrustedRoot) (tr : TrustedRoot)
    (h : fromWire d = .ok tr) :
    semEq (toWire tr) d ∧ (toWire tr).extensions = d.extensions := by
  simp only [fromWire] at h
  split at h
  · cases h
  · split at h
    · cases h
    · split at h
      · cases h
      · injection h with h1
        subst h1
        exact ⟨normDoc_idem d, rfl⟩

/-- Witness for C1 at the concrete document. -/
theorem trusted_root_round_trip_witness :
    fromWire wireDocEx = .ok trustedRootEx
  ∧ (semEq (toWire trustedRootEx) wireDocEx
      ∧ (toWire trustedRootEx).extensions = wireDocEx.extensions) :=
  ⟨by decide, trusted_root_round_trip wireDocEx trustedRootEx (by decide)⟩

/-- C8: for a valid wire document, replacing every rekor log entry
key-details tag with Ed25519 together with an Ed25519 public key (the
derived keys staying distinct) lets construction succeed and sets the
signature hash function of every resulting rekor log entry to SHA-512. -/
theorem ed25519_selects_sha512 (d : WireTrustedRoot) (tr : TrustedRoot)
    (f : WireTransparencyLogInstance → Bytes)
    (h : fromWire d = .ok tr)
    (hnodup : ((d.tlogs.map (fun l => setTlogKeyEd25519 (f l) l)).map
        (fun l => keyFor l.publicKey)).Nodup) :
    ∃ tr2,
      fromWire { d with tlogs := d.tlogs.map (fun l => setTlogKeyEd25519 (f l) l) } = .ok tr2
      ∧ ∀ p ∈ tr2.rekorLogs, p.2.signatureHashFunc = HashFunc.sha512 := by
  simp only [fromWire] at h
  split at h
  · cases h
  next h1 =>
    split at h
    · cases h
    next h2 =>
      split at h
      · cases h
      next h3 =>
        have hmt : d.mediaType = TrustedRootMediaType01 := by
          by_contra hc; exact h1 hc
        have hct : ((d.ctlogs.map (fun l => (keyFor l.publicKey, logOfWire l))).map
            Prod.fst).Nodup := not_not.mp h3
        have hrk : (((d.tlogs.map (fun l => setTlogKeyEd25519 (f l) l)).map
            (fun l => (keyFor l.publicKey, logOfWire l))).map Prod.fst).Nodup := by
          simpa [List.map_map, Function.comp_def] using hnodup
        refine ⟨{ mediaType := d.mediaType
                  rekorLogs := (d.tlogs.map (fun l => setTlogKeyEd25519 (f l) l)).map
                    (fun l => (keyFor l.publicKey, logOfWire l))
                  ctLogs := d.ctlogs.map (fun l => (keyFor l.publicKey, logOfWire l))
                  certificateAuthorities := d.certificateAuthorities.map caOfWire
                  timestampingAuthorities := d.timestampAuthorities.map caOfWire
                  trustedRoot := { d with
                    tlogs := d.tlogs.map (fun l => setTlogKeyEd25519 (f l) l) } }, ?_, ?_⟩
        · simp only [fromWire]
          rw [if_neg (by simp [hmt]), if_neg (by simpa using hrk),
            if_neg (by simpa using hct)]
        · intro p hp
          simp only [List.map_map, List.mem_map, Function.comp] at hp
          obtain ⟨l, hl, hpl⟩ := hp
          rw [← hpl]
          simp [logOfWire, setTlogKeyEd25519, signatureHashFor]

/-- Witness for C8 at the concrete document, substituting the byte 9 as the
Ed25519 key. -/
theorem ed25519_selects_sha512_witness :
    fromWire wireDocEx = .ok trustedRootEx
  ∧ ((wireDocEx.tlogs.map (fun l => setTlogKeyEd25519 [9] l)).map
      (fun l => keyFor l.publicKey)).Nodup
  ∧ ∃ tr2,
      fromWire { wireDocEx with
          tlogs := wireDocEx.tlogs.map (fun l => setTlogKeyEd25519 [9] l) } = .ok tr2
      ∧ ∀ p ∈ tr2.rekorLogs, p.2.signatureHashFunc = HashFunc.sha512 := by
  refine ⟨by decide, by decide, ?_⟩
  exact ed25519_selects_sha512 wireDocEx trustedRootEx (fun _ => [9]) (by decide) (by decide)

/-! ## Submission-stage lemmas -/

theorem submitStage_err (env : RekorEnv) (opts : RekorOptions) (b : Bundle)
    (pe : ProposedEntry) (e : GoError) (b2 : Bundle) (o2 : RekorOptions)
    (h : submitStage env opts b pe = .err e b2 o2) : b2 = b := by
  simp only [submitStage] at h
  repeat' split at h
  all_goals cases h
  all_goals rfl

theorem submitStage_ok (env : RekorEnv) (opts : RekorOptions) (b : Bundle)
    (pe : ProposedEntry) (b2 : Bundle) (o2 : RekorOptions)
    (h : submitStage env opts b pe = .ok b2 o2) :
    ∃ vm entry, b.verificationMaterial = some vm ∧ b2 = appendedBundle b vm entry := by
  cases hvm : b.verificationMaterial with
  | none =>
    simp only [submitStage, hvm] at h
    repeat' split at h
    all_goals cases h
  | some vm =>
    simp only [submitStage, hvm] at h
    repeat' split at h
    all_goals cases h
    exact ⟨vm, _, rfl, rfl⟩

theorem applyTimeout_state (opts : RekorOptions) (params : CreateLogEntryParams) :
    (applyTimeout opts params).1.baseURL = opts.baseURL
  ∧ (applyTimeout opts params).1.retries = opts.retries
  ∧ (applyTimeout opts params).1.client = opts.client
  ∧ (opts.timeout = 0 → (applyTimeout opts params).1.timeout = 30 * second)
  ∧ (opts.timeout ≠ 0 → (applyTimeout opts params).1.timeout = opts.timeout) := by
  by_cases h0 : opts.timeout = 0
  · simp [applyTimeout, h0]
  · by_cases hp : (0:Int) ≤ opts.timeout
    · simp [applyTimeout, h0, hp]
    · simp [applyTimeout, h0, hp]

theorem submitStage_options (env : RekorEnv) (opts : RekorOptions) (b : Bundle)
    (pe : ProposedEntry) :
    resultOptions (submitStage env opts b pe)
      = (match (applyTimeout opts newCreateLogEntryParams).1.client with
         | some _ => (applyTimeout opts newCreateLogEntryParams).1
         | none =>
           match env.getRekorClient (applyTimeout opts newCreateLogEntryParams).1.baseURL
               (applyTimeout opts newCreateLogEntryParams).1.retries with
           | .error _ => (applyTimeout opts newCreateLogEntryParams).1
           | .ok c => { (applyTimeout opts newCreateLogEntryParams).1 with
                          client := some c }) := by
  simp only [submitStage]
  cases hc : (applyTimeout opts newCreateLogEntryParams).1.client with
  | some c =>
    simp only [hc]
    cases henv : env.createLogEntry c
        { (applyTimeout opts newCreateLogEntryParams).2 with proposedEntry := some pe } with
    | error e => simp [henv, resultOptions]
    | ok resp =>
      cases hg : env.generateTransparencyLogEntry
          ((resp.payload.lookup resp.eTag).getD default) with
      | error e => simp [henv, hg, resultOptions]
      | ok te =>
        cases hvm : b.verificationMaterial <;> simp [henv, hg, hvm, resultOptions]
  | none =>
    simp only [hc]
    cases hcl : env.getRekorClient (applyTimeout opts newCreateLogEntryParams).1.baseURL
        (applyTimeout opts newCreateLogEntryParams).1.retries with
    | error e => simp [hcl, resultOptions]
    | ok c =>
      simp only [hcl]
      cases henv : env.createLogEntry c
          { (applyTimeout opts newCreateLogEntryParams).2 with proposedEntry := some pe } with
      | error e => simp [henv, resultOptions]
      | ok resp =>
        cases hg : env.generateTransparencyLogEntry
            ((resp.payload.lookup resp.eTag).getD default) with
        | error e => simp [henv, hg, resultOptions]
        | ok te =>
          cases hvm : b.verificationMaterial <;> simp [henv, hg, hvm, resultOptions]

/-- C4: a bundle whose signature content is a message signature and whose
verification material has no X.509 certificate is rejected with the
missing-certificate error, the bundle and options carried back unchanged. -/
theorem missing_certificate_rejected (env : RekorEnv) (opts : RekorOptions)
    (pubKeyPEM : Bytes) (b : Bundle) (ms : MessageSignature)
    (hms : b.content = some (.messageSignature ms))
    (hcert : getCertificate b.getVerificationMaterial = none) :
    getTransparencyLogEntry env opts pubKeyPEM b
      = .err "hashedrekord requires X.509 certificate" b opts := by
  have hd : b.getDsseEnvelope = none := by simp [Bundle.getDsseEnvelope, hms]
  have hm : b.getMessageSignature = some ms := by simp [Bundle.getMessageSignature, hms]
  have hpe : buildProposedEntry env pubKeyPEM b
      = .error "hashedrekord requires X.509 certificate" := by
    simp [buildProposedEntry, hd, hm, hcert]
  simp [getTransparencyLogEntry, hpe]

/-- Witness for C4 at a concrete message-signature bundle without a
certificate. -/
theorem missing_certificate_rejected_witness :
    bundleMsgNoCert.content = some (.messageSignature msEx)
  ∧ getCertificate bundleMsgNoCert.getVerificationMaterial = none
  ∧ getTransparencyLogEntry envOk optsEx [] bundleMsgNoCert
      = .err "hashedrekord requires X.509 certificate" bundleMsgNoCert optsEx :=
  ⟨rfl, rfl, missing_certificate_rejected envOk optsEx [] bundleMsgNoCert msEx rfl rfl⟩

/-- C5: whenever the call returns an error, whatever the failure point, the
bundle it carries back is the input bundle, unmodified. -/
theorem error_leaves_bundle_unchanged (env : RekorEnv) (opts : RekorOptions)
    (pubKeyPEM : Bytes) (b : Bundle) (e : GoError) (b2 : Bundle) (o2 : RekorOptions)
    (h : getTransparencyLogEntry env opts pubKeyPEM b = .err e b2 o2) :
    b2 = b := by
  simp only [getTransparencyLogEntry] at h
  cases hpe : buildProposedEntry env pubKeyPEM b with
  | error e0 => rw [hpe] at h; cases h; rfl
  | ok pe => rw [hpe] at h; exact submitStage_err env opts b pe e b2 o2 h

/-- Witness for C5 at a concrete failing call (no signature in the bundle). -/
theorem error_leaves_bundle_unchanged_witness :
    getTransparencyLogEntry envOk optsEx [] bundleNoSigEx
      = .err "unable to find signature in bundle" bundleNoSigEx optsEx
  ∧ bundleNoSigEx = bundleNoSigEx :=
  ⟨by decide, error_leaves_bundle_unchanged envOk optsEx [] bundleNoSigEx
      "unable to find signature in bundle" bundleNoSigEx optsEx (by decide)⟩

/-- C6: a successful call appends exactly one entry to the sequence of
transparency-log entries of the verification material of the bundle,
initializing an absent sequence to empty first; every pre-existing entry is
preserved at its position and none is replaced. -/
theorem success_appends_one_entry (env : RekorEnv) (opts : RekorOptions)
    (pubKeyPEM : Bytes) (b : Bundle) (b2 : Bundle) (o2 : RekorOptions)
    (h : getTransparencyLogEntry env opts pubKeyPEM b = .ok b2 o2) :
    ∃ vm entry,
      b.verificationMaterial = some vm
      ∧ b2 = appendedBundle b vm entry
      ∧ (vm.tlogEntries.getD [] ++ [entry]).length = (vm.tlogEntries.getD []).length + 1
      ∧ ∀ i, i < (vm.tlogEntries.getD []).length →
          (vm.tlogEntries.getD [] ++ [entry])[i]? = (vm.tlogEntries.getD [])[i]? := by
  simp only [getTransparencyLogEntry] at h
  cases hpe : buildProposedEntry env pubKeyPEM b with
  | error e => rw [hpe] at h; cases h
  | ok pe =>
    rw [hpe] at h
    obtain ⟨vm, entry, hvm, hb2⟩ := submitStage_ok env opts b pe b2 o2 h
    refine ⟨vm, entry, hvm, hb2, by simp, ?_⟩
    intro i hi
    exact List.getElem?_append_left hi

/-- Witness for C6 at a concrete successful call on a bundle already
carrying one log entry. -/
theorem success_appends_one_entry_witness :
    getTransparencyLogEntry envOk optsEx [] bundleDsseEx = .ok bundleDsseOut optsEx
  ∧ ∃ vm entry,
      bundleDsseEx.verificationMaterial = some vm
      ∧ bundleDsseOut = appendedBundle bundleDsseEx vm entry
      ∧ (vm.tlogEntries.getD [] ++ [entry]).length = (vm.tlogEntries.getD []).length + 1
      ∧ ∀ i, i < (vm.tlogEntries.getD []).length →
          (vm.tlogEntries.getD [] ++ [entry])[i]? = (vm.tlogEntries.getD [])[i]? :=
  ⟨by decide, success_appends_one_entry envOk optsEx [] bundleDsseEx bundleDsseOut optsEx
      (by decide)⟩

/-- C9 counterexample: a call made with a zero timeout that fails in the
signature switch (no signature in the bundle) does not overwrite the shared
timeout with 30 seconds, contradicting the claim that every call made with a
zero timeout does. -/
theorem options_mutation_cex :
    optsZeroEx.timeout = 0
  ∧ optsZeroEx.client = none
  ∧ (resultOptions (getTransparencyLogEntry envOk optsZeroEx [] bundleNoSigEx)).timeout = 0
  ∧ ¬ (resultOptions (getTransparencyLogEntry envOk optsZeroEx [] bundleNoSigEx)).timeout
        = 30 * second
  ∧ (resultOptions (getTransparencyLogEntry envOk optsZeroEx [] bundleNoSigEx)).client
        = none := by
  decide

/-- C9 amended: once the proposed entry has been constructed successfully,
the call mutates the shared options exactly as described: a zero timeout is
overwritten with 30 seconds, a nonzero timeout is kept, an absent client is
replaced by the constructed client when its construction succeeds, a present
client is kept, and the base URL and retry count are unchanged; the mutated
options are the state later calls observe. -/
theorem options_mutation (env : RekorEnv) (opts : RekorOptions) (pubKeyPEM : Bytes)
    (b : Bundle) (pe : ProposedEntry)
    (hpe : buildProposedEntry env pubKeyPEM b = .ok pe) :
    (resultOptions (getTransparencyLogEntry env opts pubKeyPEM b)).baseURL = opts.baseURL
  ∧ (resultOptions (getTransparencyLogEntry env opts pubKeyPEM b)).retries = opts.retries
  ∧ (opts.timeout = 0 →
      (resultOptions (getTransparencyLogEntry env opts pubKeyPEM b)).timeout = 30 * second)
  ∧ (opts.timeout ≠ 0 →
      (resultOptions (getTransparencyLogEntry env opts pubKeyPEM b)).timeout = opts.timeout)
  ∧ (∀ c, opts.client = some c →
      (resultOptions (getTransparencyLogEntry env opts pubKeyPEM b)).client = some c)
  ∧ (opts.client = none → ∀ c, env.getRekorClient opts.baseURL opts.retries = .ok c →
      (resultOptions (getTransparencyLogEntry env opts pubKeyPEM b)).client = some c) := by
  have hgte : getTransparencyLogEntry env opts pubKeyPEM b = submitStage env opts b pe := by
    simp [getTransparencyLogEntry, hpe]
  rw [hgte, submitStage_options env opts b pe]
  obtain ⟨hb, hr, hcl, ht0, htn⟩ := applyTimeout_state opts newCreateLogEntryParams
  cases hc : (applyTimeout opts newCreateLogEntryParams).1.client with
  | some c =>
    refine ⟨hb, hr, ht0, htn, ?_, ?_⟩
    · intro c2 hc2
      show (applyTimeout opts newCreateLogEntryParams).1.client = some c2
      rw [hcl]
      exact hc2
    · intro hnone c2 hok
      rw [hcl, hnone] at hc
      cases hc
  | none =>
    cases hgc : env.getRekorClient (applyTimeout opts newCreateLogEntryParams).1.baseURL
        (applyTimeout opts newCreateLogEntryParams).1.retries with
    | error e =>
      refine ⟨hb, hr, ht0, htn, ?_, ?_⟩
      · intro c2 hc2
        rw [hcl, hc2] at hc
        cases hc
      · intro hnone c2 hok
        rw [hb, hr] at hgc
        rw [hok] at hgc
        cases hgc
    | ok c =>
      refine ⟨hb, hr, ht0, htn, ?_, ?_⟩
      · intro c2 hc2
        rw [hcl, hc2] at hc
        cases hc
      · intro hnone c2 hok
        rw [hb, hr] at hgc
        rw [hok] at hgc
        injection hgc with hcc
        show some c = some c2
        rw [hcc]

/-- Witness for the amended C9 at a concrete call whose proposed entry
succeeds, with a zero timeout and no injected client. -/
theorem options_mutation_witness :
    buildProposedEntry envOk [] bundleDsseEx = .ok { tag := 1 }
  ∧ ((resultOptions (getTransparencyLogEntry envOk optsZeroEx [] bundleDsseEx)).baseURL
        = optsZeroEx.baseURL
    ∧ (resultOptions (getTransparencyLogEntry envOk optsZeroEx [] bundleDsseEx)).retries
        = optsZeroEx.retries
    ∧ (optsZeroEx.timeout = 0 →
        (resultOptions (getTransparencyLogEntry envOk optsZeroEx [] bundleDsseEx)).timeout
          = 30 * second)
    ∧ (optsZeroEx.timeout ≠ 0 →
        (resultOptions (getTransparencyLogEntry envOk optsZeroEx [] bundleDsseEx)).timeout
          = optsZeroEx.timeout)
    ∧ (∀ c, optsZeroEx.client = some c →
        (resultOptions (getTransparencyLogEntry envOk optsZeroEx [] bundleDsseEx)).client
          = some c)
    ∧ (optsZeroEx.client = none → ∀ c,
        envOk.getRekorClient optsZeroEx.baseURL optsZeroEx.retries = .ok c →
        (resultOptions (getTransparencyLogEntry envOk optsZeroEx [] bundleDsseEx)).client
          = some c)) :=
  ⟨by decide, options_mutation envOk optsZeroEx [] bundleDsseEx { tag := 1 } (by decide)⟩

/-- C10: a bundle carrying a DSSE envelope but no verification material at
all passes every precondition check, and a successful submission then
dereferences the absent verification material: the call crashes instead of
returning an error. -/
theorem nil_vm_dereference_panics :
    getTransparencyLogEntry envOk optsEx [] bundleDsseNoVM = .nilPanic optsEx := by
  decide

end SigstoreGo
